import Mathlib

/-!
Shallow embedding of the covid19-dashboard curve-projection engine
(seir.ts style module: simulateOneDay, adjustPopulations, getAllBracketCurves).

Numbers are modelled as rationals.  In this model the only source of a
non-finite intermediate value in the source's exposure computation is a
division by a zero total population, so the source's Number.isFinite guard
is rendered as an explicit test for a zero denominator.  JavaScript array
writes at negative indices create object properties outside the dense
0..length-1 range of the array, so they never show up in the per-day
adjustment sequence; the embedding guards those writes away explicitly.
-/

namespace CovidProjection

/-- SEIR compartment indices, mirroring the seirIndex enum of the source
(the __length marker is represented by the cardinality of the type). -/
inductive SeirIndex where
  | susceptible
  | exposed
  | infectious
  | quarantined
  | hospitalized
  | icu
  | hospitalRecovery
  | fatalities
  | recoveredMild
  | recoveredHospitalized
  deriving DecidableEq, Fintype, Repr

/-- Age/role groups, mirroring the ageGroupIndex enum of the source. -/
inductive AgeGroup where
  | ageUnknown
  | age0
  | age20
  | age45
  | age55
  | age65
  | age75
  | age85
  | staff
  deriving DecidableEq, Fintype, Repr

/-- Numeric index of a group, as in the source enum (staff = 8). -/
def AgeGroup.toNat : AgeGroup → ℕ
  | .ageUnknown => 0
  | .age0 => 1
  | .age20 => 2
  | .age45 => 3
  | .age55 => 4
  | .age65 => 5
  | .age75 => 6
  | .age85 => 7
  | .staff => 8

-- model constants, transcribed from the source

def dIncubation : ℚ := 2
def rExposedToInfectious : ℚ := 1 / dIncubation
def pSymptomatic : ℚ := 0.821
def dInfectious : ℚ := 5.1
def rInfectiousToQuarantined : ℚ := pSymptomatic * (1 / dInfectious)
def dAsymptomaticInfectious : ℚ := 7
def rInfectiousToRecovered : ℚ := (1 - pSymptomatic) * (1 / dAsymptomaticInfectious)
def pQuarantinedMild : ℚ := 0.74
def dMildRecovery : ℚ := 9.9
def rQuarantinedToRecovered : ℚ := pQuarantinedMild * (1 / dMildRecovery)
def dHospitalLag : ℚ := 2.9
def rQuarantinedToHospitalized : ℚ := (1 - pQuarantinedMild) * (1 / dHospitalLag)
def pIcu : ℚ := 0.3
def dIcuLag : ℚ := 2
def rHospitalizedToIcu : ℚ := pIcu * (1 / dIcuLag)
def dHospitalized : ℚ := 22
def dPostIcuRecovery : ℚ := 12
def rHospitalRecoveryToRecovered : ℚ := 1 / dPostIcuRecovery
def pIcuFatality : ℚ := 0.15
def dIcuFatality : ℚ := 6.3
def dIcuRecovery : ℚ := 5
def rIcuToFatality : ℚ := pIcuFatality * (1 / dIcuFatality)
def rIcuToHospitalRecovery : ℚ := (1 - pIcuFatality) * (1 / dIcuRecovery)
def dHospitalizedFatality : ℚ := 8.3

/-- Factor for estimating population adjustment based on expected turnover. -/
def populationAdjustmentRatio : ℚ := 0.0879

-- distribution of initial infected cases across compartments
def pInitiallyInfectious : ℚ := 0.57
def pInitiallyQuarantined : ℚ := 0.253
def pInitiallyHospitalized : ℚ := 0.041
def pInitiallyIcu : ℚ := 0.012
def pInitiallyHospitalRecovery : ℚ := 0.004
def pInitiallyRecoveredMild : ℚ := 0.074
def pInitiallyRecoveredHospitalized : ℚ := 0.045
def pInitiallyDead : ℚ := 0.001

/-- Inputs of simulateOneDay (SimulationInputs and SingleDayInputs merged,
as in the source's intersection type). -/
structure SingleDayInputs where
  facilityDormitoryPct : ℚ
  pFatalityRate : ℚ
  populationAdjustment : ℚ
  priorSimulation : SeirIndex → ℚ
  rateOfSpreadCells : ℚ
  rateOfSpreadDorms : ℚ
  simulateStaff : Bool
  totalInfectious : ℚ
  totalPopulation : ℚ
  totalSusceptibleIncarcerated : ℚ

/-- The susceptible count after the incarcerated population adjustment
(the source mutates the local susceptible variable in the non-staff branch;
the JavaScript truthiness test on totalSusceptibleIncarcerated becomes a
test against zero). -/
def adjustedSusceptible (i : SingleDayInputs) : ℚ :=
  let s := i.priorSimulation SeirIndex.susceptible
  if i.simulateStaff then s
  else
    s +
      (if i.totalSusceptibleIncarcerated = 0 then 0
       else i.populationAdjustment * (s / i.totalSusceptibleIncarcerated))

/-- The new-exposures quantity before the finiteness guard. -/
def cSusceptibleRaw (i : SingleDayInputs) : ℚ :=
  let rSusceptibleToExposedCells := i.rateOfSpreadCells / dInfectious
  let rSusceptibleToExposedDorms := i.rateOfSpreadDorms / dInfectious
  let facilityCellsPct := 1 - i.facilityDormitoryPct
  let susceptible := adjustedSusceptible i
  if i.simulateStaff then
    rSusceptibleToExposedCells * i.totalInfectious * susceptible /
      i.totalPopulation
  else
    facilityCellsPct * rSusceptibleToExposedCells * i.totalInfectious *
        susceptible / i.totalPopulation +
      i.facilityDormitoryPct * rSusceptibleToExposedDorms * i.totalInfectious *
        susceptible / i.totalPopulation

/-- The new-exposures quantity after the source's Number.isFinite guard;
in the rational model the computed value is non-finite exactly when the
total-population denominator is zero, in which case zero is substituted. -/
def cSusceptible (i : SingleDayInputs) : ℚ :=
  if i.totalPopulation = 0 then 0 else cSusceptibleRaw i

/-- One group's daily transition, transcribed from simulateOneDay. -/
def simulateOneDay (i : SingleDayInputs) : SeirIndex → ℚ :=
  let rHospitalizedToFatality := i.pFatalityRate * (1 / dHospitalizedFatality)
  let pHospitalRecovery := 1 - i.pFatalityRate - pIcu
  let rHospitalizedToRecovered := pHospitalRecovery * (1 / dHospitalized)
  let susceptible := adjustedSusceptible i
  let exposed := i.priorSimulation SeirIndex.exposed
  let infectious := i.priorSimulation SeirIndex.infectious
  let quarantined := i.priorSimulation SeirIndex.quarantined
  let hospitalized := i.priorSimulation SeirIndex.hospitalized
  let icu := i.priorSimulation SeirIndex.icu
  let hospitalRecovery := i.priorSimulation SeirIndex.hospitalRecovery
  let fatalities := i.priorSimulation SeirIndex.fatalities
  let recoveredMild := i.priorSimulation SeirIndex.recoveredMild
  let recoveredHospitalized := i.priorSimulation SeirIndex.recoveredHospitalized
  let cS := cSusceptible i
  let susceptibleDelta := -cS
  let exposedDelta := cS - rExposedToInfectious * exposed
  let infectiousDelta :=
    rExposedToInfectious * exposed -
      (rInfectiousToQuarantined + rInfectiousToRecovered) * infectious
  let quarantinedDelta :=
    rInfectiousToQuarantined * infectious -
      (rQuarantinedToHospitalized + rQuarantinedToRecovered) * quarantined
  let hospitalizedDelta :=
    rQuarantinedToHospitalized * quarantined -
      (rHospitalizedToIcu + rHospitalizedToRecovered) * hospitalized -
      rHospitalizedToFatality * hospitalized
  let icuDelta :=
    rHospitalizedToIcu * hospitalized - rIcuToFatality * icu -
      rIcuToHospitalRecovery * icu
  let hospitalRecoveryDelta :=
    rIcuToHospitalRecovery * icu -
      rHospitalRecoveryToRecovered * hospitalRecovery
  let fatalitiesDelta :=
    rIcuToFatality * icu + rHospitalizedToFatality * hospitalized
  let recoveredMildDelta :=
    rInfectiousToRecovered * infectious + rQuarantinedToRecovered * quarantined
  let recoveredHospitalizedDelta :=
    rHospitalizedToRecovered * hospitalized +
      rHospitalRecoveryToRecovered * hospitalRecovery
  fun c => match c with
  | .susceptible => max (susceptible + susceptibleDelta) 0
  | .exposed => exposed + exposedDelta
  | .infectious => infectious + infectiousDelta
  | .quarantined => quarantined + quarantinedDelta
  | .hospitalized => hospitalized + hospitalizedDelta
  | .icu => icu + icuDelta
  | .hospitalRecovery => hospitalRecovery + hospitalRecoveryDelta
  | .fatalities => fatalities + fatalitiesDelta
  | .recoveredMild => recoveredMild + recoveredMildDelta
  | .recoveredHospitalized => recoveredHospitalized + recoveredHospitalizedDelta

/-- Spread-intensity selector (RateOfSpread). -/
inductive RateOfSpread where
  | low
  | moderate
  | high
  deriving DecidableEq, Repr

/-- Base reproduction numbers for the cells housing type (R0Cells enum). -/
def R0Cells : RateOfSpread → ℚ
  | .low => 2.4
  | .moderate => 3
  | .high => 3.7

/-- Base reproduction numbers for the dorms housing type (R0Dorms enum). -/
def R0Dorms : RateOfSpread → ℚ
  | .low => 3
  | .moderate => 5
  | .high => 7

def rateOfSpreadCellsAdjustment : ℚ := 0.8

def rateOfSpreadDormsAdjustment : ℚ := 1.7

/-- Occupancy-adjusted transmission intensity for cells, as computed in the
driver before the day loop. -/
def adjustedRateOfSpreadCells (factor : RateOfSpread) (occupancyPct : ℚ) : ℚ :=
  R0Cells factor -
    (1 - occupancyPct) * (R0Cells factor - rateOfSpreadCellsAdjustment)

/-- Occupancy-adjusted transmission intensity for dorms. -/
def adjustedRateOfSpreadDorms (factor : RateOfSpread) (occupancyPct : ℚ) : ℚ :=
  R0Dorms factor -
    (1 - occupancyPct) * (R0Dorms factor - rateOfSpreadDormsAdjustment)

/-- Recursion underlying adjustPopulations: index-aware map over the
population list; index 8 is the staff group, left unchanged. -/
def adjustPopulationsAux (adjustRate : ℚ) : ℕ → List ℚ → List ℚ
  | _, [] => []
  | idx, pop :: rest =>
      (if idx = 8 then pop else pop + pop * adjustRate) ::
        adjustPopulationsAux adjustRate (idx + 1) rest

/-- Turnover-driven population adjustment (adjustPopulations). -/
def adjustPopulations (ageGroupPopulations : List ℚ)
    (populationTurnover : ℚ) : List ℚ :=
  adjustPopulationsAux (populationTurnover * populationAdjustmentRatio) 0
    ageGroupPopulations

/-- A planned-release record; both fields are optional in the source type. -/
structure PlannedRelease where
  date : Option ℤ
  count : Option ℚ

/-- Configuration record (CurveProjectionInputs). -/
structure CurveProjectionInputs where
  ageGroupPopulations : List ℚ
  numDays : ℕ
  ageGroupInitiallyInfected : List ℚ
  facilityOccupancyPct : ℚ
  facilityDormitoryPct : ℚ
  rateOfSpreadFactor : RateOfSpread
  plannedReleases : Option (List PlannedRelease)
  populationTurnover : ℚ

/-- Fatality rate by age group (ageGroupFatalityRates array). -/
def ageGroupFatalityRates : AgeGroup → ℚ
  | .ageUnknown => 0.026
  | .age0 => 0
  | .age20 => 0.0015
  | .age45 => 0.0065
  | .age55 => 0.02
  | .age65 => 0.038
  | .age75 => 0.074
  | .age85 => 0.1885
  | .staff => 0.026

/-- Day-zero compartment row for one group, given its adjusted population
and initially-infected count, as seeded by the driver. -/
def initRow (pop cases : ℚ) : SeirIndex → ℚ :=
  let exposed := cases * rExposedToInfectious
  fun c => match c with
  | .susceptible => pop - cases - exposed
  | .exposed => exposed
  | .infectious => cases * pInitiallyInfectious
  | .quarantined => cases * pInitiallyQuarantined
  | .hospitalized => cases * pInitiallyHospitalized
  | .icu => cases * pInitiallyIcu
  | .hospitalRecovery => cases * pInitiallyHospitalRecovery
  | .fatalities => cases * pInitiallyDead
  | .recoveredMild => cases * pInitiallyRecoveredMild
  | .recoveredHospitalized => cases * pInitiallyRecoveredHospitalized

/-- Day-zero state: the driver zips populations with initially-infected
counts (zip truncates to the shorter list; rows beyond it keep the zero
fill, which initRow reproduces on the (0, 0) default). -/
def initState (pops cases : List ℚ) : AgeGroup → SeirIndex → ℚ :=
  fun g =>
    let pc := (pops.zip cases).getD g.toNat (0, 0)
    initRow pc.1 pc.2

/-- Sum of the infectious column across all groups. -/
def totalInfectiousOf (s : AgeGroup → SeirIndex → ℚ) : ℚ :=
  s .ageUnknown .infectious + s .age0 .infectious + s .age20 .infectious +
    s .age45 .infectious + s .age55 .infectious + s .age65 .infectious +
    s .age75 .infectious + s .age85 .infectious + s .staff .infectious

/-- Sum of the susceptible column across all non-staff groups. -/
def totalSusceptibleIncarceratedOf (s : AgeGroup → SeirIndex → ℚ) : ℚ :=
  s .ageUnknown .susceptible + s .age0 .susceptible + s .age20 .susceptible +
    s .age45 .susceptible + s .age55 .susceptible + s .age65 .susceptible +
    s .age75 .susceptible + s .age85 .susceptible

/-- One day of the driver loop: every group's row is replaced using the
prior day's aggregates (the in-place row updates of the source read only
the not-yet-overwritten prior rows, so the update is functional). -/
def stepState (facilityDormitoryPct rosCells rosDorms adjustment
    totalPopulation : ℚ) (s : AgeGroup → SeirIndex → ℚ) :
    AgeGroup → SeirIndex → ℚ :=
  fun g =>
    simulateOneDay
      { facilityDormitoryPct := facilityDormitoryPct
        pFatalityRate := ageGroupFatalityRates g
        populationAdjustment := adjustment
        priorSimulation := s g
        rateOfSpreadCells := rosCells
        rateOfSpreadDorms := rosDorms
        simulateStaff := decide (g = AgeGroup.staff)
        totalInfectious := totalInfectiousOf s
        totalPopulation := totalPopulation
        totalSusceptibleIncarcerated := totalSusceptibleIncarceratedOf s }

/-- Body of the forEach over planned releases: incomplete records (missing
date, missing or zero count) are skipped; otherwise the calendar-day
difference from the reference date selects the slot, offsets at or beyond
the horizon are dropped, and offsets below zero land outside the dense
array in the source, so they are dropped from the per-day sequence too. -/
def applyRelease (numDays : ℕ) (today : ℤ) (acc : List ℚ)
    (r : PlannedRelease) : List ℚ :=
  match r.count, r.date with
  | some count, some date =>
      if count = 0 then acc
      else
        let dateIndex := date - today
        if 0 ≤ dateIndex ∧ dateIndex < (numDays : ℤ) then
          acc.set dateIndex.toNat (acc.getD dateIndex.toNat 0 - count)
        else acc
  | _, _ => acc

/-- Resolution of the planned-release list into the per-day adjustment
sequence, starting from the zero fill of the horizon length. -/
def resolveChanges (numDays : ℕ) (today : ℤ) (rel : List PlannedRelease) :
    List ℚ :=
  rel.foldl (applyRelease numDays today) (List.replicate numDays 0)

/-- Total population by day: day zero is the adjusted starting total, later
days add that day's scheduled adjustment to the prior day's total. -/
def tpByDay (startTotal : ℚ) (changes : List ℚ) : ℕ → ℚ
  | 0 => startTotal
  | d + 1 => tpByDay startTotal changes d + changes.getD (d + 1) 0

/-- The driver's state after d simulated days, for a given resolved
adjustment sequence. -/
def stateAtDay (inp : CurveProjectionInputs) (changes : List ℚ) :
    ℕ → AgeGroup → SeirIndex → ℚ
  | 0 =>
      initState
        (adjustPopulations inp.ageGroupPopulations inp.populationTurnover)
        inp.ageGroupInitiallyInfected
  | d + 1 =>
      stepState inp.facilityDormitoryPct
        (adjustedRateOfSpreadCells inp.rateOfSpreadFactor
          inp.facilityOccupancyPct)
        (adjustedRateOfSpreadDorms inp.rateOfSpreadFactor
          inp.facilityOccupancyPct)
        (changes.getD (d + 1) 0)
        (tpByDay
          (adjustPopulations inp.ageGroupPopulations
            inp.populationTurnover).sum
          changes d)
        (stateAtDay inp changes d)

/-- Outputs of getAllBracketCurves. -/
structure ProjectionOutputs where
  projectionGrid : SeirIndex → ℕ → AgeGroup → ℚ
  totalPopulationByDay : ℕ → ℚ
  expectedPopulationChanges : List ℚ

/-- The projection driver (getAllBracketCurves), with the wall-clock
reference date of the source's date resolution passed explicitly. -/
def getAllBracketCurves (today : ℤ) (inp : CurveProjectionInputs) :
    ProjectionOutputs :=
  let changes :=
    resolveChanges inp.numDays today (inp.plannedReleases.getD [])
  { projectionGrid := fun c d g =>
      if d < inp.numDays then stateAtDay inp changes d g c else 0
    totalPopulationByDay :=
      tpByDay
        (adjustPopulations inp.ageGroupPopulations
          inp.populationTurnover).sum
        changes
    expectedPopulationChanges := changes }

/-- Sum of the 10 compartment values of one row. -/
def rowSum (r : SeirIndex → ℚ) : ℚ :=
  r .susceptible + r .exposed + r .infectious + r .quarantined +
    r .hospitalized + r .icu + r .hospitalRecovery + r .fatalities +
    r .recoveredMild + r .recoveredHospitalized

/-! Concrete configurations used as test inputs below. -/

/-- Single group of 1000 with 100 initially infected. -/
def cfgC9 : CurveProjectionInputs :=
  { ageGroupPopulations := [1000, 0, 0, 0, 0, 0, 0, 0, 0]
    numDays := 1
    ageGroupInitiallyInfected := [100, 0, 0, 0, 0, 0, 0, 0, 0]
    facilityOccupancyPct := 1
    facilityDormitoryPct := 0
    rateOfSpreadFactor := RateOfSpread.low
    plannedReleases := none
    populationTurnover := 0 }

/-- Configuration whose infected seed dwarfs the population, so that the
susceptible clamp of the transition engages on day 1 for the age0 group. -/
def cfgC1x : CurveProjectionInputs :=
  { ageGroupPopulations := [0, 10, 0, 0, 0, 0, 0, 0, 0]
    numDays := 2
    ageGroupInitiallyInfected := [1000, 0, 0, 0, 0, 0, 0, 0, 0]
    facilityOccupancyPct := 1
    facilityDormitoryPct := 0
    rateOfSpreadFactor := RateOfSpread.low
    plannedReleases := none
    populationTurnover := 0 }

/-- Configuration whose initially-infected count exceeds the group
population, driving the day-zero susceptible seed negative. -/
def cfgC2x : CurveProjectionInputs :=
  { ageGroupPopulations := [1, 0, 0, 0, 0, 0, 0, 0, 0]
    numDays := 1
    ageGroupInitiallyInfected := [100, 0, 0, 0, 0, 0, 0, 0, 0]
    facilityOccupancyPct := 1
    facilityDormitoryPct := 0
    rateOfSpreadFactor := RateOfSpread.low
    plannedReleases := none
    populationTurnover := 0 }

/-- Well-behaved configuration used to exercise the non-negativity
theorem. -/
def cfgC2w : CurveProjectionInputs :=
  { ageGroupPopulations := [10, 0, 0, 0, 0, 0, 0, 0, 10]
    numDays := 2
    ageGroupInitiallyInfected := [3, 0, 0, 0, 0, 0, 0, 0, 0]
    facilityOccupancyPct := 1
    facilityDormitoryPct := 0
    rateOfSpreadFactor := RateOfSpread.low
    plannedReleases := none
    populationTurnover := 0 }

/-- Mixed population of incarcerated and staff, all cells housing. -/
def cfgC3a : CurveProjectionInputs :=
  { ageGroupPopulations := [100, 0, 0, 0, 0, 0, 0, 0, 100]
    numDays := 4
    ageGroupInitiallyInfected := [10, 0, 0, 0, 0, 0, 0, 0, 0]
    facilityOccupancyPct := 1
    facilityDormitoryPct := 0
    rateOfSpreadFactor := RateOfSpread.low
    plannedReleases := none
    populationTurnover := 0 }

/-- Same as cfgC3a except the dormitory fraction. -/
def cfgC3b : CurveProjectionInputs :=
  { cfgC3a with facilityDormitoryPct := 1 }

/-- Prior-day row used by single-day witness inputs. -/
def rowW : SeirIndex → ℚ := fun c =>
  match c with
  | .susceptible => 10
  | .exposed => 1
  | .infectious => 2
  | _ => 0

/-- Staff single-day input with zero population adjustment. -/
def inC1w : SingleDayInputs :=
  { facilityDormitoryPct := 0
    pFatalityRate := 0.026
    populationAdjustment := 0
    priorSimulation := rowW
    rateOfSpreadCells := 2.4
    rateOfSpreadDorms := 3
    simulateStaff := true
    totalInfectious := 2
    totalPopulation := 13
    totalSusceptibleIncarcerated := 0 }

/-- Staff single-day input used to exercise dormitory independence. -/
def inC3w : SingleDayInputs :=
  { facilityDormitoryPct := 0
    pFatalityRate := 0.026
    populationAdjustment := 5
    priorSimulation := rowW
    rateOfSpreadCells := 2.4
    rateOfSpreadDorms := 3
    simulateStaff := true
    totalInfectious := 2
    totalPopulation := 13
    totalSusceptibleIncarcerated := 4 }

/-- Single-day input with a zero total population. -/
def inC4w : SingleDayInputs :=
  { facilityDormitoryPct := 1 / 2
    pFatalityRate := 0.026
    populationAdjustment := 2
    priorSimulation := rowW
    rateOfSpreadCells := 3
    rateOfSpreadDorms := 5
    simulateStaff := false
    totalInfectious := 7
    totalPopulation := 0
    totalSusceptibleIncarcerated := 9 }

/-- Configuration with one planned release of 50 at day offset 3. -/
def cfgC7 : CurveProjectionInputs :=
  { ageGroupPopulations := [100, 0, 0, 0, 0, 0, 0, 0, 0]
    numDays := 5
    ageGroupInitiallyInfected := [10, 0, 0, 0, 0, 0, 0, 0, 0]
    facilityOccupancyPct := 1
    facilityDormitoryPct := 0
    rateOfSpreadFactor := RateOfSpread.low
    plannedReleases := some [{ date := some 3, count := some 50 }]
    populationTurnover := 0 }

/-- Configuration with a planned release dated reference-date plus 3. -/
def cfgC5w : CurveProjectionInputs :=
  { ageGroupPopulations := [100, 0, 0, 0, 0, 0, 0, 0, 0]
    numDays := 6
    ageGroupInitiallyInfected := [10, 0, 0, 0, 0, 0, 0, 0, 0]
    facilityOccupancyPct := 1
    facilityDormitoryPct := 0
    rateOfSpreadFactor := RateOfSpread.low
    plannedReleases := some [{ date := some ((5 : ℤ) + 3), count := some 50 }]
    populationTurnover := 0 }

/-- Configuration with no planned releases. -/
def cfgC7w : CurveProjectionInputs :=
  { ageGroupPopulations := [100, 0, 0, 0, 0, 0, 0, 0, 0]
    numDays := 3
    ageGroupInitiallyInfected := [10, 0, 0, 0, 0, 0, 0, 0, 0]
    facilityOccupancyPct := 1
    facilityDormitoryPct := 0
    rateOfSpreadFactor := RateOfSpread.low
    plannedReleases := none
    populationTurnover := 0 }

/-- Fully populated configuration with nine group entries. -/
def cfgC10w : CurveProjectionInputs :=
  { ageGroupPopulations := [50, 40, 30, 20, 10, 9, 8, 7, 6]
    numDays := 2
    ageGroupInitiallyInfected := [5, 4, 3, 2, 1, 1, 1, 1, 0]
    facilityOccupancyPct := 1
    facilityDormitoryPct := 0
    rateOfSpreadFactor := RateOfSpread.moderate
    plannedReleases := none
    populationTurnover := 2 }

/-! Helper lemmas. -/

theorem ageUnknown_ne_staff : (AgeGroup.ageUnknown = AgeGroup.staff) = False :=
  eq_false (by decide)

theorem age0_ne_staff : (AgeGroup.age0 = AgeGroup.staff) = False :=
  eq_false (by decide)

theorem age20_ne_staff : (AgeGroup.age20 = AgeGroup.staff) = False :=
  eq_false (by decide)

theorem age45_ne_staff : (AgeGroup.age45 = AgeGroup.staff) = False :=
  eq_false (by decide)

theorem age55_ne_staff : (AgeGroup.age55 = AgeGroup.staff) = False :=
  eq_false (by decide)

theorem age65_ne_staff : (AgeGroup.age65 = AgeGroup.staff) = False :=
  eq_false (by decide)

theorem age75_ne_staff : (AgeGroup.age75 = AgeGroup.staff) = False :=
  eq_false (by decide)

theorem age85_ne_staff : (AgeGroup.age85 = AgeGroup.staff) = False :=
  eq_false (by decide)

theorem staff_eq_staff : (AgeGroup.staff = AgeGroup.staff) = True :=
  eq_true rfl

set_option maxHeartbeats 4000000

/-- Claim C8: for every spread-intensity level the occupancy-adjusted
transmission intensities satisfy the linear interpolation formula
base minus (1 - occupancy) times (base minus floor); at occupancy 0 they
equal the floor constants 0.8 and 1.7, and at occupancy 1 the unadjusted
base reproduction numbers. -/
theorem claim_C8_occupancy_adjustment (factor : RateOfSpread)
    (occupancyPct : ℚ) :
    adjustedRateOfSpreadCells factor occupancyPct =
        R0Cells factor - (1 - occupancyPct) * (R0Cells factor - 0.8) ∧
      adjustedRateOfSpreadDorms factor occupancyPct =
        R0Dorms factor - (1 - occupancyPct) * (R0Dorms factor - 1.7) ∧
      adjustedRateOfSpreadCells factor 0 = 0.8 ∧
      adjustedRateOfSpreadDorms factor 0 = 1.7 ∧
      adjustedRateOfSpreadCells factor 1 = R0Cells factor ∧
      adjustedRateOfSpreadDorms factor 1 = R0Dorms factor := by
  refine ⟨rfl, rfl, ?_, ?_, ?_, ?_⟩ <;> cases factor <;>
    norm_num [adjustedRateOfSpreadCells, adjustedRateOfSpreadDorms, R0Cells,
      R0Dorms, rateOfSpreadCellsAdjustment, rateOfSpreadDormsAdjustment]

/-- Claim C9: for a single group with population 1000 and 100 initially
infected, the day-zero susceptible output is 1000 - 100 - 100 times the
exposed-to-infectious rate, and the day-zero infectious output is
100 times 0.57. -/
theorem claim_C9_day_zero :
    (getAllBracketCurves 0 cfgC9).projectionGrid SeirIndex.susceptible 0
        AgeGroup.ageUnknown = 1000 - 100 - 100 * rExposedToInfectious ∧
      (getAllBracketCurves 0 cfgC9).projectionGrid SeirIndex.infectious 0
        AgeGroup.ageUnknown = 100 * 0.57 := by
  constructor <;>
    norm_num [getAllBracketCurves, resolveChanges, stateAtDay, initState,
      initRow, adjustPopulations, adjustPopulationsAux, AgeGroup.toNat, cfgC9,
      rExposedToInfectious, dIncubation, pInitiallyInfectious,
      populationAdjustmentRatio]

/-- Claim C4: when the total population is zero (the only way the
new-exposures computation can go non-finite in this rational model), the
guarded new-exposures value is zero and the transition still produces a
value for every compartment, with the exposed compartment updated as if no
new exposures occurred. -/
theorem claim_C4_nonfinite_guard (i : SingleDayInputs)
    (h : i.totalPopulation = 0) :
    cSusceptible i = 0 ∧
      (∀ c : SeirIndex, ∃ q : ℚ, simulateOneDay i c = q) ∧
      simulateOneDay i SeirIndex.exposed =
        i.priorSimulation SeirIndex.exposed -
          rExposedToInfectious * i.priorSimulation SeirIndex.exposed := by
  refine ⟨by simp [cSusceptible, h], fun c => ⟨simulateOneDay i c, rfl⟩, ?_⟩
  simp [simulateOneDay, cSusceptible, h]
  ring

/-- Witness for claim C4 at a concrete zero-population input. -/
theorem claim_C4_witness :
    cSusceptible inC4w = 0 ∧
      (∀ c : SeirIndex, ∃ q : ℚ, simulateOneDay inC4w c = q) ∧
      simulateOneDay inC4w SeirIndex.exposed =
        inC4w.priorSimulation SeirIndex.exposed -
          rExposedToInfectious * inC4w.priorSimulation SeirIndex.exposed :=
  claim_C4_nonfinite_guard inC4w rfl

/-- Claim C3, counterexample: two runs that differ only in the facility
dormitory fraction produce different staff trajectories; the staff exposed
value differs on day 3, because the total-infectious aggregate feeding
staff exposure depends on the other groups, whose trajectories depend on
the dormitory fraction. -/
theorem claim_C3_counterexample :
    (getAllBracketCurves 0 cfgC3a).projectionGrid SeirIndex.exposed 3
        AgeGroup.staff ≠
      (getAllBracketCurves 0 cfgC3b).projectionGrid SeirIndex.exposed 3
        AgeGroup.staff := by
  norm_num [getAllBracketCurves, resolveChanges, stateAtDay, stepState,
    simulateOneDay, cSusceptible, cSusceptibleRaw, adjustedSusceptible,
    initState, initRow, totalInfectiousOf, totalSusceptibleIncarceratedOf,
    tpByDay, adjustPopulations, adjustPopulationsAux,
    adjustedRateOfSpreadCells, adjustedRateOfSpreadDorms, R0Cells, R0Dorms,
    ageGroupFatalityRates, AgeGroup.toNat, cfgC3a, cfgC3b, max_def,
    dIncubation, rExposedToInfectious, pSymptomatic, dInfectious,
    rInfectiousToQuarantined, dAsymptomaticInfectious, rInfectiousToRecovered,
    pQuarantinedMild, dMildRecovery, rQuarantinedToRecovered, dHospitalLag,
    rQuarantinedToHospitalized, pIcu, dIcuLag, rHospitalizedToIcu,
    dHospitalized, dPostIcuRecovery, rHospitalRecoveryToRecovered,
    pIcuFatality, dIcuFatality, dIcuRecovery, rIcuToFatality,
    rIcuToHospitalRecovery, dHospitalizedFatality, populationAdjustmentRatio,
    pInitiallyInfectious, pInitiallyQuarantined, pInitiallyHospitalized,
    pInitiallyIcu, pInitiallyHospitalRecovery, pInitiallyRecoveredMild,
    pInitiallyRecoveredHospitalized, pInitiallyDead,
    rateOfSpreadCellsAdjustment, rateOfSpreadDormsAdjustment,
    ageUnknown_ne_staff, age0_ne_staff, age20_ne_staff, age45_ne_staff,
    age55_ne_staff, age65_ne_staff, age75_ne_staff, age85_ne_staff]

/-- Claim C3, amended: the staff group's single-day transition does not
depend on the dormitory fraction or on the dorm transmission intensity
(staff exposure ignores the housing split); the full-trajectory statement
fails because of cross-group coupling through total infectious. -/
theorem claim_C3_staff_single_day (i : SingleDayInputs) (d1 d2 r1 r2 : ℚ)
    (h : i.simulateStaff = true) :
    simulateOneDay { i with facilityDormitoryPct := d1, rateOfSpreadDorms := r1 } =
      simulateOneDay { i with facilityDormitoryPct := d2, rateOfSpreadDorms := r2 } := by
  funext c
  cases c <;>
    simp [simulateOneDay, cSusceptible, cSusceptibleRaw, adjustedSusceptible, h]

/-- Witness for the amended claim C3 at a concrete staff input. -/
theorem claim_C3_witness :
    simulateOneDay { inC3w with facilityDormitoryPct := 0, rateOfSpreadDorms := 3 } =
      simulateOneDay { inC3w with facilityDormitoryPct := 1, rateOfSpreadDorms := 7 } :=
  claim_C3_staff_single_day inC3w 0 1 3 7 rfl

/-- Claim C7, counterexample: with a planned release present, the outputs
depend on the wall-clock reference date, which the claim does not list
among the fixed inputs; the same configuration run with reference dates 0
and 3 yields different resolved adjustment sequences. -/
theorem claim_C7_counterexample :
    (getAllBracketCurves 0 cfgC7).expectedPopulationChanges.getD 3 0 ≠
      (getAllBracketCurves 3 cfgC7).expectedPopulationChanges.getD 3 0 := by
  norm_num [getAllBracketCurves, resolveChanges, applyRelease, cfgC7,
    List.replicate, List.set, List.getD, List.getElem_cons_succ,
    List.getElem_cons_zero, show (3 : ℤ).toNat = 3 from rfl]

/-- Claim C7, amended: the projection is a deterministic function of its
inputs together with the injected reference date; in particular, with no
planned releases the outputs are independent of the reference date. -/
theorem claim_C7_deterministic (t1 t2 : ℤ) (inp : CurveProjectionInputs)
    (h : inp.plannedReleases = none) :
    getAllBracketCurves t1 inp = getAllBracketCurves t2 inp := by
  simp [getAllBracketCurves, resolveChanges, h]

/-- Witness for the amended claim C7 at a release-free configuration. -/
theorem claim_C7_witness :
    getAllBracketCurves 0 cfgC7w = getAllBracketCurves 7 cfgC7w :=
  claim_C7_deterministic 0 7 cfgC7w rfl

/-- List helper: getD after setting the same in-range position. -/
theorem getD_set_self (l : List ℚ) (n : ℕ) (v : ℚ) (h : n < l.length) :
    (l.set n v).getD n 0 = v := by
  induction l generalizing n with
  | nil => simp at h
  | cons a t ih =>
    cases n with
    | zero => simp
    | succ m =>
      simpa [List.getD] using ih m (by simpa using h)

/-- List helper: every position of a zero fill reads zero. -/
theorem getD_replicate (n k : ℕ) :
    (List.replicate n (0 : ℚ)).getD k 0 = 0 := by
  induction n generalizing k with
  | zero => simp [List.getD]
  | succ m ih => cases k <;> simp [List.replicate_succ, List.getD, ih]

/-- Claim C1, counterexample: in a run with no planned releases (every
day's population adjustment is zero), the sum of the age0 group's
compartments on day 1 differs from its day-0 sum: the susceptible clamp of
the transition creates mass when the computed exposures exceed the
susceptible pool. -/
theorem claim_C1_counterexample :
    (getAllBracketCurves 0 cfgC1x).expectedPopulationChanges = [0, 0] ∧
      rowSum
          (fun c =>
            (getAllBracketCurves 0 cfgC1x).projectionGrid c 1 AgeGroup.age0) ≠
        rowSum
          (fun c =>
            (getAllBracketCurves 0 cfgC1x).projectionGrid c 0 AgeGroup.age0) := by
  refine ⟨rfl, ?_⟩
  norm_num [getAllBracketCurves, resolveChanges, stateAtDay, stepState,
    simulateOneDay, cSusceptible, cSusceptibleRaw, adjustedSusceptible,
    initState, initRow, totalInfectiousOf, totalSusceptibleIncarceratedOf,
    tpByDay, adjustPopulations, adjustPopulationsAux,
    adjustedRateOfSpreadCells, adjustedRateOfSpreadDorms, R0Cells, R0Dorms,
    ageGroupFatalityRates, AgeGroup.toNat, cfgC1x, max_def, rowSum,
    dIncubation, rExposedToInfectious, pSymptomatic, dInfectious,
    rInfectiousToQuarantined, dAsymptomaticInfectious, rInfectiousToRecovered,
    pQuarantinedMild, dMildRecovery, rQuarantinedToRecovered, dHospitalLag,
    rQuarantinedToHospitalized, pIcu, dIcuLag, rHospitalizedToIcu,
    dHospitalized, dPostIcuRecovery, rHospitalRecoveryToRecovered,
    pIcuFatality, dIcuFatality, dIcuRecovery, rIcuToFatality,
    rIcuToHospitalRecovery, dHospitalizedFatality, populationAdjustmentRatio,
    pInitiallyInfectious, pInitiallyQuarantined, pInitiallyHospitalized,
    pInitiallyIcu, pInitiallyHospitalRecovery, pInitiallyRecoveredMild,
    pInitiallyRecoveredHospitalized, pInitiallyDead,
    rateOfSpreadCellsAdjustment, rateOfSpreadDormsAdjustment,
    ageUnknown_ne_staff, age0_ne_staff, age20_ne_staff, age45_ne_staff,
    age55_ne_staff, age65_ne_staff, age75_ne_staff, age85_ne_staff]

/-- Claim C1, amended: on a day whose population adjustment is zero, a
group's compartment sum is conserved by the single-day transition provided
the susceptible clamp is inactive, that is, the computed new exposures do
not exceed the (adjusted) susceptible pool; with the clamp active the sum
can grow. -/
theorem claim_C1_mass_conservation (i : SingleDayInputs)
    (hadj : i.populationAdjustment = 0)
    (hclamp : cSusceptible i ≤ adjustedSusceptible i) :
    rowSum (simulateOneDay i) = rowSum i.priorSimulation := by
  have hs : adjustedSusceptible i = i.priorSimulation SeirIndex.susceptible := by
    cases hb : i.simulateStaff <;> simp [adjustedSusceptible, hadj, hb]
  have hmax : max (adjustedSusceptible i + -cSusceptible i) 0 =
      adjustedSusceptible i + -cSusceptible i :=
    max_eq_left (by linarith)
  simp only [rowSum, simulateOneDay]
  rw [hmax, hs]
  ring

/-- Witness for the amended claim C1 at a concrete staff input. -/
theorem claim_C1_witness :
    inC1w.populationAdjustment = 0 ∧
      cSusceptible inC1w ≤ adjustedSusceptible inC1w ∧
      rowSum (simulateOneDay inC1w) = rowSum inC1w.priorSimulation :=
  ⟨rfl,
    by norm_num [cSusceptible, cSusceptibleRaw, adjustedSusceptible, inC1w,
      rowW, dInfectious],
    claim_C1_mass_conservation inC1w rfl
      (by norm_num [cSusceptible, cSusceptibleRaw, adjustedSusceptible, inC1w,
        rowW, dInfectious])⟩

/-- Claim C5: a planned release of 50 resolving to day offset 3 shows up as
minus 50 at index 3 of the resolved adjustment sequence, each day's total
population is the prior day's total plus that day's adjustment, and hence
day 3's total is day 2's total minus 50. -/
theorem claim_C5_planned_release (today : ℤ) (inp : CurveProjectionInputs)
    (hrel : inp.plannedReleases =
      some [{ date := some (today + 3), count := some 50 }])
    (hdays : 4 ≤ inp.numDays) :
    (getAllBracketCurves today inp).expectedPopulationChanges.getD 3 0 =
        -50 ∧
      (∀ n : ℕ, 1 ≤ n → n < inp.numDays →
        (getAllBracketCurves today inp).totalPopulationByDay n =
          (getAllBracketCurves today inp).totalPopulationByDay (n - 1) +
            (getAllBracketCurves today inp).expectedPopulationChanges.getD
              n 0) ∧
      (getAllBracketCurves today inp).totalPopulationByDay 3 =
        (getAllBracketCurves today inp).totalPopulationByDay 2 - 50 := by
  have h3 : (3 : ℤ) < (inp.numDays : ℤ) := by exact_mod_cast by omega
  have h1 : today + 3 - today = (3 : ℤ) := by ring
  have hch : (getAllBracketCurves today inp).expectedPopulationChanges =
      (List.replicate inp.numDays 0).set 3
        ((List.replicate inp.numDays 0).getD 3 0 - 50) := by
    simp [getAllBracketCurves, resolveChanges, applyRelease, hrel, h1, h3,
      show ((3 : ℤ)).toNat = 3 from rfl]
  have hget : (getAllBracketCurves today inp).expectedPopulationChanges.getD
      3 0 = -50 := by
    rw [hch, getD_replicate]
    rw [getD_set_self _ _ _ (by simp; omega)]
    norm_num
  refine ⟨hget, ?_, ?_⟩
  · intro n hn1 hn2
    cases n with
    | zero => omega
    | succ m => simp [getAllBracketCurves, tpByDay]
  · have : (getAllBracketCurves today inp).totalPopulationByDay 3 =
        (getAllBracketCurves today inp).totalPopulationByDay 2 +
          (getAllBracketCurves today inp).expectedPopulationChanges.getD
            3 0 := by
      simp [getAllBracketCurves, tpByDay]
    rw [this, hget]
    ring

/-- Witness for claim C5 at a concrete configuration and reference date. -/
theorem claim_C5_witness :
    (getAllBracketCurves 5 cfgC5w).expectedPopulationChanges.getD 3 0 =
        -50 ∧
      (∀ n : ℕ, 1 ≤ n → n < cfgC5w.numDays →
        (getAllBracketCurves 5 cfgC5w).totalPopulationByDay n =
          (getAllBracketCurves 5 cfgC5w).totalPopulationByDay (n - 1) +
            (getAllBracketCurves 5 cfgC5w).expectedPopulationChanges.getD
              n 0) ∧
      (getAllBracketCurves 5 cfgC5w).totalPopulationByDay 3 =
        (getAllBracketCurves 5 cfgC5w).totalPopulationByDay 2 - 50 :=
  claim_C5_planned_release 5 cfgC5w rfl (by norm_num [cfgC5w])

/-- Claim C6: resolving the planned-release list ignores records with a
missing count, a zero count or a missing date; drops events whose resolved
offset lies at or beyond the horizon; and accumulates several events that
resolve to the same day into that day's single entry. -/
theorem claim_C6_release_resolution (numDays : ℕ) (today : ℤ)
    (pre post : List PlannedRelease) (r : PlannedRelease) (dte d : ℤ)
    (c c1 c2 : ℚ) (r1 r2 : PlannedRelease) :
    ((r.count = none ∨ r.count = some 0 ∨ r.date = none) →
      resolveChanges numDays today (pre ++ r :: post) =
        resolveChanges numDays today (pre ++ post)) ∧
    ((numDays : ℤ) ≤ dte - today →
      resolveChanges numDays today
          (pre ++ ({ date := some dte, count := some c } : PlannedRelease) ::
            post) =
        resolveChanges numDays today (pre ++ post)) ∧
    (r1.date = some d → r2.date = some d → r1.count = some c1 →
      r2.count = some c2 → c1 ≠ 0 → c2 ≠ 0 → 0 ≤ d - today →
      d - today < (numDays : ℤ) →
      (resolveChanges numDays today [r1, r2]).getD (d - today).toNat 0 =
        -(c1 + c2)) := by
  refine ⟨?_, ?_, ?_⟩
  · intro h
    have hstep : ∀ acc, applyRelease numDays today acc r = acc := by
      intro acc
      rcases r with ⟨rd, rc⟩
      rcases h with h | h | h
      · simp_all [applyRelease]
      · cases rd <;> simp_all [applyRelease]
      · cases rc <;> simp_all [applyRelease]
    simp [resolveChanges, List.foldl_append, hstep]
  · intro h
    have hstep : ∀ acc,
        applyRelease numDays today acc
          { date := some dte, count := some c } = acc := by
      intro acc
      by_cases hc : c = 0 <;>
        simp [applyRelease, hc, show ¬dte - today < (numDays : ℤ) by omega]
    simp [resolveChanges, List.foldl_append, hstep]
  · intro hd1 hd2 hc1 hc2 hne1 hne2 hge hlt
    have htn : (d - today).toNat < numDays := by omega
    rcases r1 with ⟨rd1, rc1⟩
    rcases r2 with ⟨rd2, rc2⟩
    simp only at hd1 hd2 hc1 hc2
    subst hd1 hd2 hc1 hc2
    simp only [resolveChanges, List.foldl_cons, List.foldl_nil]
    rw [show applyRelease numDays today (List.replicate numDays 0)
          { date := some d, count := some c1 } =
        (List.replicate numDays 0).set (d - today).toNat (0 - c1) by
      simp [applyRelease, hne1, hge, hlt, getD_replicate]]
    rw [show applyRelease numDays today
          ((List.replicate numDays 0).set (d - today).toNat (0 - c1))
          { date := some d, count := some c2 } =
        ((List.replicate numDays 0).set (d - today).toNat (0 - c1)).set
          (d - today).toNat (0 - c1 - c2) by
      rw [applyRelease]
      simp only [hne1, hne2, hge, hlt, and_self, if_true, if_neg hne2]
      rw [getD_set_self _ _ _ (by simpa using htn)]
      simp]
    rw [getD_set_self _ _ _ (by simpa using htn)]
    ring

/-- Witness for claim C6 at concrete malformed, out-of-horizon and
same-day release lists. -/
theorem claim_C6_witness :
    resolveChanges 5 0 [{ date := none, count := some 3 }] =
        resolveChanges 5 0 [] ∧
      resolveChanges 5 0 [{ date := some 9, count := some 3 }] =
        resolveChanges 5 0 [] ∧
      (resolveChanges 5 0
            [{ date := some 2, count := some 3 },
              { date := some 2, count := some 4 }]).getD 2 0 =
        -(3 + 4) := by
  have h := claim_C6_release_resolution 5 0 [] []
    { date := none, count := some 3 } 9 2 3 3 4
    { date := some 2, count := some 3 } { date := some 2, count := some 4 }
  exact ⟨h.1 (Or.inr (Or.inr rfl)), h.2.1 (by norm_num),
    h.2.2 rfl rfl rfl rfl (by norm_num) (by norm_num) (by norm_num)
      (by norm_num)⟩

/-- The occupancy-adjusted cells intensity is non-negative whenever the
occupancy fraction is. -/
theorem adjustedRateOfSpreadCells_nonneg (f : RateOfSpread) (occ : ℚ)
    (h : 0 ≤ occ) : 0 ≤ adjustedRateOfSpreadCells f occ := by
  cases f <;>
    (norm_num [adjustedRateOfSpreadCells, R0Cells,
      rateOfSpreadCellsAdjustment]; linarith)

/-- The occupancy-adjusted dorms intensity is non-negative whenever the
occupancy fraction is. -/
theorem adjustedRateOfSpreadDorms_nonneg (f : RateOfSpread) (occ : ℚ)
    (h : 0 ≤ occ) : 0 ≤ adjustedRateOfSpreadDorms f occ := by
  cases f <;>
    (norm_num [adjustedRateOfSpreadDorms, R0Dorms,
      rateOfSpreadDormsAdjustment]; linarith)

/-- Every age-group fatality rate is non-negative. -/
theorem ageGroupFatalityRates_nonneg (g : AgeGroup) :
    0 ≤ ageGroupFatalityRates g := by
  cases g <;> norm_num [ageGroupFatalityRates]

/-- Every age-group fatality rate is at most 7/10, so the hospitalized
recovery fraction 1 - rate - pIcu stays non-negative. -/
theorem ageGroupFatalityRates_le (g : AgeGroup) :
    ageGroupFatalityRates g ≤ 7 / 10 := by
  cases g <;> norm_num [ageGroupFatalityRates]

/-- With a zero population adjustment the adjusted susceptible pool is the
prior susceptible value, in both the staff and the non-staff branch. -/
theorem adjustedSusceptible_of_zero_adjustment (i : SingleDayInputs)
    (hadj : i.populationAdjustment = 0) :
    adjustedSusceptible i = i.priorSimulation SeirIndex.susceptible := by
  cases hb : i.simulateStaff <;> simp [adjustedSusceptible, hadj, hb]

/-- The guarded new-exposures value is non-negative when the prior row,
the transmission intensities, the housing split, the infectious total and
the population total are, under a zero population adjustment. -/
theorem cSusceptible_nonneg (i : SingleDayInputs)
    (hrow : ∀ c, 0 ≤ i.priorSimulation c)
    (hcells : 0 ≤ i.rateOfSpreadCells) (hdorms : 0 ≤ i.rateOfSpreadDorms)
    (hd0 : 0 ≤ i.facilityDormitoryPct) (hd1 : i.facilityDormitoryPct ≤ 1)
    (hinf : 0 ≤ i.totalInfectious) (hpop : 0 ≤ i.totalPopulation)
    (hadj : i.populationAdjustment = 0) : 0 ≤ cSusceptible i := by
  have hsus : 0 ≤ adjustedSusceptible i := by
    rw [adjustedSusceptible_of_zero_adjustment i hadj]
    exact hrow SeirIndex.susceptible
  have t1 : 0 ≤ i.rateOfSpreadCells / dInfectious :=
    div_nonneg hcells (by norm_num [dInfectious])
  have t2 : 0 ≤ i.rateOfSpreadDorms / dInfectious :=
    div_nonneg hdorms (by norm_num [dInfectious])
  have h1 : (0 : ℚ) ≤ 1 - i.facilityDormitoryPct := by linarith
  unfold cSusceptible
  by_cases htp : i.totalPopulation = 0
  · simp [htp]
  · simp only [htp, if_false]
    unfold cSusceptibleRaw
    cases hb : i.simulateStaff
    · simp only [hb, Bool.false_eq_true, if_false]
      exact add_nonneg
        (div_nonneg
          (mul_nonneg (mul_nonneg (mul_nonneg h1 t1) hinf) hsus) hpop)
        (div_nonneg
          (mul_nonneg (mul_nonneg (mul_nonneg hd0 t2) hinf) hsus) hpop)
    · simp only [hb, if_true]
      exact div_nonneg (mul_nonneg (mul_nonneg t1 hinf) hsus) hpop

/-- On a zero-adjustment day with non-negative inputs the single-day
transition keeps every compartment non-negative: the susceptible clamp
protects susceptible, and every other compartment keeps at least its prior
value times one minus its total outflow rate, which is below one. -/
theorem simulateOneDay_nonneg (i : SingleDayInputs)
    (hrow : ∀ c, 0 ≤ i.priorSimulation c)
    (hcells : 0 ≤ i.rateOfSpreadCells) (hdorms : 0 ≤ i.rateOfSpreadDorms)
    (hd0 : 0 ≤ i.facilityDormitoryPct) (hd1 : i.facilityDormitoryPct ≤ 1)
    (hinf : 0 ≤ i.totalInfectious) (hpop : 0 ≤ i.totalPopulation)
    (hadj : i.populationAdjustment = 0)
    (hp0 : 0 ≤ i.pFatalityRate) (hp1 : i.pFatalityRate ≤ 7 / 10) :
    ∀ c, 0 ≤ simulateOneDay i c := by
  have hcs : 0 ≤ cSusceptible i :=
    cSusceptible_nonneg i hrow hcells hdorms hd0 hd1 hinf hpop hadj
  have hS := hrow SeirIndex.susceptible
  have hE := hrow SeirIndex.exposed
  have hI := hrow SeirIndex.infectious
  have hQ := hrow SeirIndex.quarantined
  have hH := hrow SeirIndex.hospitalized
  have hU := hrow SeirIndex.icu
  have hR := hrow SeirIndex.hospitalRecovery
  have hF := hrow SeirIndex.fatalities
  have hM := hrow SeirIndex.recoveredMild
  have hB := hrow SeirIndex.recoveredHospitalized
  have hup : i.priorSimulation SeirIndex.hospitalized * i.pFatalityRate ≤
      i.priorSimulation SeirIndex.hospitalized * (7 / 10) :=
    mul_le_mul_of_nonneg_left hp1 hH
  have hlo : 0 ≤ i.priorSimulation SeirIndex.hospitalized * i.pFatalityRate :=
    mul_nonneg hH hp0
  intro c
  cases c <;>
    norm_num [simulateOneDay, dIncubation, rExposedToInfectious, pSymptomatic,
      dInfectious, rInfectiousToQuarantined, dAsymptomaticInfectious,
      rInfectiousToRecovered, pQuarantinedMild, dMildRecovery,
      rQuarantinedToRecovered, dHospitalLag, rQuarantinedToHospitalized, pIcu,
      dIcuLag, rHospitalizedToIcu, dHospitalized, dPostIcuRecovery,
      rHospitalRecoveryToRecovered, pIcuFatality, dIcuFatality, dIcuRecovery,
      rIcuToFatality, rIcuToHospitalRecovery, dHospitalizedFatality]
  case exposed => nlinarith [hcs, hE]
  case infectious => nlinarith [hE, hI]
  case quarantined => nlinarith [hI, hQ]
  case hospitalized => nlinarith [hQ, hH, hup, hlo]
  case icu => nlinarith [hH, hU]
  case hospitalRecovery => nlinarith [hU, hR]
  case fatalities => nlinarith [hF, hU, hlo]
  case recoveredMild => nlinarith [hI, hQ, hM]
  case recoveredHospitalized => nlinarith [hB, hR, hH, hup, hlo]

/-- The infectious column sum is non-negative on a non-negative state. -/
theorem totalInfectiousOf_nonneg (s : AgeGroup → SeirIndex → ℚ)
    (h : ∀ g c, 0 ≤ s g c) : 0 ≤ totalInfectiousOf s := by
  unfold totalInfectiousOf
  have h1 := h AgeGroup.ageUnknown SeirIndex.infectious
  have h2 := h AgeGroup.age0 SeirIndex.infectious
  have h3 := h AgeGroup.age20 SeirIndex.infectious
  have h4 := h AgeGroup.age45 SeirIndex.infectious
  have h5 := h AgeGroup.age55 SeirIndex.infectious
  have h6 := h AgeGroup.age65 SeirIndex.infectious
  have h7 := h AgeGroup.age75 SeirIndex.infectious
  have h8 := h AgeGroup.age85 SeirIndex.infectious
  have h9 := h AgeGroup.staff SeirIndex.infectious
  linarith

/-- One driver day keeps the state non-negative under the conditions of
simulateOneDay_nonneg, instantiated with each group's fatality rate. -/
theorem stepState_nonneg (dorm rosC rosD adj tp : ℚ)
    (s : AgeGroup → SeirIndex → ℚ) (hs : ∀ g c, 0 ≤ s g c)
    (hrc : 0 ≤ rosC) (hrd : 0 ≤ rosD) (hd0 : 0 ≤ dorm) (hd1 : dorm ≤ 1)
    (hadj : adj = 0) (htp : 0 ≤ tp) :
    ∀ g c, 0 ≤ stepState dorm rosC rosD adj tp s g c := by
  intro g c
  simp only [stepState]
  exact simulateOneDay_nonneg _ (fun c' => hs g c') hrc hrd hd0 hd1
    (totalInfectiousOf_nonneg s hs) htp hadj
    (ageGroupFatalityRates_nonneg g) (ageGroupFatalityRates_le g) c

/-- The turnover adjustment maps a non-negative population list to a
non-negative list when the adjustment rate is non-negative. -/
theorem adjustPopulationsAux_nonneg (r : ℚ) (hr : 0 ≤ r) :
    ∀ (idx : ℕ) (l : List ℚ), (∀ x ∈ l, 0 ≤ x) →
      ∀ x ∈ adjustPopulationsAux r idx l, 0 ≤ x := by
  intro idx l
  induction l generalizing idx with
  | nil => intro _ x hx; simp [adjustPopulationsAux] at hx
  | cons p t ih =>
    intro hl x hx
    have hp : 0 ≤ p := hl p (by simp)
    simp only [adjustPopulationsAux, List.mem_cons] at hx
    rcases hx with rfl | hx
    · split
      · exact hp
      · nlinarith [mul_nonneg hp hr]
    · exact ih (idx + 1) (fun y hy => hl y (by simp [hy])) x hx

/-- Total population by day is constant when every adjustment is zero. -/
theorem tpByDay_replicate (s : ℚ) (n : ℕ) :
    ∀ d, tpByDay s (List.replicate n 0) d = s := by
  intro d
  induction d with
  | zero => rfl
  | succ m ih => simp [tpByDay, ih, getD_replicate]

/-- Claim C2, counterexample: the day-zero susceptible seed is written to
the output grid unclamped, so a configuration whose initially-infected
count exceeds the group population produces a negative grid value. -/
theorem claim_C2_counterexample :
    (getAllBracketCurves 0 cfgC2x).projectionGrid SeirIndex.susceptible 0
        AgeGroup.ageUnknown < 0 := by
  norm_num [getAllBracketCurves, resolveChanges, stateAtDay, initState,
    initRow, adjustPopulations, adjustPopulationsAux, AgeGroup.toNat, cfgC2x,
    rExposedToInfectious, dIncubation, populationAdjustmentRatio]

/-- Claim C2, amended: every value of the output grid is non-negative
provided the facility fractions are in range, the populations, turnover
and occupancy are non-negative, there are no planned releases, and the
day-zero seeded state is componentwise non-negative (initially-infected
counts small enough relative to the adjusted populations). -/
theorem claim_C2_nonneg (today : ℤ) (inp : CurveProjectionInputs)
    (hocc : 0 ≤ inp.facilityOccupancyPct)
    (hd0 : 0 ≤ inp.facilityDormitoryPct)
    (hd1 : inp.facilityDormitoryPct ≤ 1)
    (hpops : ∀ x ∈ inp.ageGroupPopulations, 0 ≤ x)
    (hturn : 0 ≤ inp.populationTurnover)
    (hrel : inp.plannedReleases = none)
    (hday0 : ∀ g c, 0 ≤ initState
        (adjustPopulations inp.ageGroupPopulations inp.populationTurnover)
        inp.ageGroupInitiallyInfected g c) :
    ∀ c d g, 0 ≤ (getAllBracketCurves today inp).projectionGrid c d g := by
  have hsum : 0 ≤ (adjustPopulations inp.ageGroupPopulations
      inp.populationTurnover).sum := by
    apply List.sum_nonneg
    intro x hx
    exact adjustPopulationsAux_nonneg _
      (mul_nonneg hturn (by norm_num [populationAdjustmentRatio])) 0 _
      hpops x hx
  have key : ∀ d g c,
      0 ≤ stateAtDay inp (List.replicate inp.numDays 0) d g c := by
    intro d
    induction d with
    | zero =>
      intro g c
      simpa [stateAtDay] using hday0 g c
    | succ d ih =>
      intro g c
      have hstep := stepState_nonneg inp.facilityDormitoryPct
        (adjustedRateOfSpreadCells inp.rateOfSpreadFactor
          inp.facilityOccupancyPct)
        (adjustedRateOfSpreadDorms inp.rateOfSpreadFactor
          inp.facilityOccupancyPct)
        ((List.replicate inp.numDays 0).getD (d + 1) 0)
        (tpByDay (adjustPopulations inp.ageGroupPopulations
          inp.populationTurnover).sum (List.replicate inp.numDays 0) d)
        (stateAtDay inp (List.replicate inp.numDays 0) d) ih
        (adjustedRateOfSpreadCells_nonneg _ _ hocc)
        (adjustedRateOfSpreadDorms_nonneg _ _ hocc)
        hd0 hd1 (getD_replicate _ _)
        (by rw [tpByDay_replicate]; exact hsum)
      simpa [stateAtDay] using hstep g c
  intro c d g
  simp only [getAllBracketCurves, resolveChanges, hrel, Option.getD_none,
    List.foldl_nil]
  split
  · exact key d g c
  · exact le_refl 0

/-- Witness for the amended claim C2 at a concrete in-range
configuration. -/
theorem claim_C2_witness :
    0 ≤ (getAllBracketCurves 0 cfgC2w).projectionGrid SeirIndex.exposed 1
      AgeGroup.ageUnknown :=
  claim_C2_nonneg 0 cfgC2w (by norm_num [cfgC2w]) (by norm_num [cfgC2w])
    (by norm_num [cfgC2w])
    (by
      intro x hx
      simp only [cfgC2w] at hx
      fin_cases hx <;> norm_num)
    (by norm_num [cfgC2w]) rfl
    (by
      intro g c
      cases g <;> cases c <;>
        norm_num [initState, initRow, adjustPopulations,
          adjustPopulationsAux, AgeGroup.toNat, cfgC2w,
          rExposedToInfectious, dIncubation, populationAdjustmentRatio,
          pInitiallyInfectious, pInitiallyQuarantined, pInitiallyHospitalized,
          pInitiallyIcu, pInitiallyHospitalRecovery, pInitiallyRecoveredMild,
          pInitiallyRecoveredHospitalized, pInitiallyDead])
    SeirIndex.exposed 1 AgeGroup.ageUnknown

/-- Claim C10: with one population and one initially-infected entry per
group, each group's ten day-zero compartment values sum to exactly that
group's turnover-adjusted starting population (the initial-case fractions
sum to one), and the day-zero total population equals the sum of the
day-zero grid. -/
theorem claim_C10_day_zero_sums (today : ℤ) (inp : CurveProjectionInputs)
    (hp : inp.ageGroupPopulations.length = 9)
    (hc : inp.ageGroupInitiallyInfected.length = 9)
    (hd : 0 < inp.numDays) :
    (∀ g : AgeGroup,
      rowSum (fun c =>
          (getAllBracketCurves today inp).projectionGrid c 0 g) =
        (adjustPopulations inp.ageGroupPopulations
            inp.populationTurnover).getD g.toNat 0) ∧
      (getAllBracketCurves today inp).totalPopulationByDay 0 =
        rowSum (fun c =>
            (getAllBracketCurves today inp).projectionGrid c 0
              AgeGroup.ageUnknown) +
          rowSum (fun c =>
            (getAllBracketCurves today inp).projectionGrid c 0
              AgeGroup.age0) +
          rowSum (fun c =>
            (getAllBracketCurves today inp).projectionGrid c 0
              AgeGroup.age20) +
          rowSum (fun c =>
            (getAllBracketCurves today inp).projectionGrid c 0
              AgeGroup.age45) +
          rowSum (fun c =>
            (getAllBracketCurves today inp).projectionGrid c 0
              AgeGroup.age55) +
          rowSum (fun c =>
            (getAllBracketCurves today inp).projectionGrid c 0
              AgeGroup.age65) +
          rowSum (fun c =>
            (getAllBracketCurves today inp).projectionGrid c 0
              AgeGroup.age75) +
          rowSum (fun c =>
            (getAllBracketCurves today inp).projectionGrid c 0
              AgeGroup.age85) +
          rowSum (fun c =>
            (getAllBracketCurves today inp).projectionGrid c 0
              AgeGroup.staff) := by
  rcases inp with ⟨pops, numDays, cases0, occ, dorm, factor, rel, turn⟩
  simp only at hp hc hd
  obtain ⟨p0, p1, p2, p3, p4, p5, p6, p7, p8, rfl⟩ :
      ∃ a0 a1 a2 a3 a4 a5 a6 a7 a8,
        pops = [a0, a1, a2, a3, a4, a5, a6, a7, a8] := by
    rcases pops with _ | ⟨a0, _ | ⟨a1, _ | ⟨a2, _ | ⟨a3, _ | ⟨a4, _ |
      ⟨a5, _ | ⟨a6, _ | ⟨a7, _ | ⟨a8, _ | ⟨a9, t⟩⟩⟩⟩⟩⟩⟩⟩⟩⟩ <;>
      first
        | exact ⟨_, _, _, _, _, _, _, _, _, rfl⟩
        | simp at hp
  obtain ⟨c0, c1, c2, c3, c4, c5, c6, c7, c8, rfl⟩ :
      ∃ b0 b1 b2 b3 b4 b5 b6 b7 b8,
        cases0 = [b0, b1, b2, b3, b4, b5, b6, b7, b8] := by
    rcases cases0 with _ | ⟨b0, _ | ⟨b1, _ | ⟨b2, _ | ⟨b3, _ | ⟨b4, _ |
      ⟨b5, _ | ⟨b6, _ | ⟨b7, _ | ⟨b8, _ | ⟨b9, t⟩⟩⟩⟩⟩⟩⟩⟩⟩⟩ <;>
      first
        | exact ⟨_, _, _, _, _, _, _, _, _, rfl⟩
        | simp at hc
  constructor
  · intro g
    cases g <;>
      (norm_num [getAllBracketCurves, resolveChanges, stateAtDay, initState,
        initRow, rowSum, adjustPopulations, adjustPopulationsAux,
        AgeGroup.toNat, tpByDay, hd, List.zip_cons_cons,
        rExposedToInfectious, dIncubation, pInitiallyInfectious,
        pInitiallyQuarantined, pInitiallyHospitalized, pInitiallyIcu,
        pInitiallyHospitalRecovery, pInitiallyRecoveredMild,
        pInitiallyRecoveredHospitalized, pInitiallyDead,
        populationAdjustmentRatio]; ring)
  · norm_num [getAllBracketCurves, resolveChanges, stateAtDay, initState,
      initRow, rowSum, adjustPopulations, adjustPopulationsAux,
      AgeGroup.toNat, tpByDay, hd, List.zip_cons_cons,
      rExposedToInfectious, dIncubation, pInitiallyInfectious,
      pInitiallyQuarantined, pInitiallyHospitalized, pInitiallyIcu,
      pInitiallyHospitalRecovery, pInitiallyRecoveredMild,
      pInitiallyRecoveredHospitalized, pInitiallyDead,
      populationAdjustmentRatio]
    ring

/-- Witness for claim C10 at a fully populated configuration. -/
theorem claim_C10_witness :
    (∀ g : AgeGroup,
      rowSum (fun c =>
          (getAllBracketCurves 0 cfgC10w).projectionGrid c 0 g) =
        (adjustPopulations cfgC10w.ageGroupPopulations
            cfgC10w.populationTurnover).getD g.toNat 0) ∧
      (getAllBracketCurves 0 cfgC10w).totalPopulationByDay 0 =
        rowSum (fun c =>
            (getAllBracketCurves 0 cfgC10w).projectionGrid c 0
              AgeGroup.ageUnknown) +
          rowSum (fun c =>
            (getAllBracketCurves 0 cfgC10w).projectionGrid c 0
              AgeGroup.age0) +
          rowSum (fun c =>
            (getAllBracketCurves 0 cfgC10w).projectionGrid c 0
              AgeGroup.age20) +
          rowSum (fun c =>
            (getAllBracketCurves 0 cfgC10w).projectionGrid c 0
              AgeGroup.age45) +
          rowSum (fun c =>
            (getAllBracketCurves 0 cfgC10w).projectionGrid c 0
              AgeGroup.age55) +
          rowSum (fun c =>
            (getAllBracketCurves 0 cfgC10w).projectionGrid c 0
              AgeGroup.age65) +
          rowSum (fun c =>
            (getAllBracketCurves 0 cfgC10w).projectionGrid c 0
              AgeGroup.age75) +
          rowSum (fun c =>
            (getAllBracketCurves 0 cfgC10w).projectionGrid c 0
              AgeGroup.age85) +
          rowSum (fun c =>
            (getAllBracketCurves 0 cfgC10w).projectionGrid c 0
              AgeGroup.staff) :=
  claim_C10_day_zero_sums 0 cfgC10w rfl rfl (by norm_num [cfgC10w])

end CovidProjection
